import Mathlib

/-!
Verification of the BlazeTracker event-sourced narrative state core.

This file shallowly embeds the context-budget allocator
(`computeOptimalContext`, `getChapterAtMessage`, `getOutOfContextEvents`
from `src/v2/injectors/events.ts` / `contextBudget`), the chapter/event
formatting (`src/v2/injectors/chapters.ts`), the slash-command helper
`findFirstUnextractedMessageId` (`src/commands/helpers.ts`) and the macro
handlers (`src/v2/injectors/macros.ts`), and proves the specification
claims about them.

The narrative derivation layer (`EventStore` class internals,
`computeNarrativeEvents`, `computeAllChapters`, `getCurrentChapterIndex`,
`projectStateAtMessage`, `getMilestoneDisplayName`,
`formatStateForInjection`) is not part of the embedded sources; those
collaborators are abstracted as explicit parameters, mirroring the
dependency-injection framing of the spec.
-/

/-- Structure `Position` from the data model: one specific branch of one specific
message (`{messageId, swipeId}`). -/
structure Position where
  messageId : Nat
  swipeId : Nat
  deriving Repr, DecidableEq

/-- The branch-resolver interface: `getCanonicalSwipeId(messageId) → swipeId`,
supplied externally by the chat host. -/
structure SwipeContext where
  getCanonicalSwipeId : Nat → Nat

/-- A stored event as used by `findFirstUnextractedMessageId`: its source
position and soft-delete flag (other payload fields do not affect the
embedded operations). -/
structure StoredEvent where
  id : String
  source : Position
  timestamp : Nat
  deleted : Bool
  deriving Repr, DecidableEq

/-- A stored snapshot as used by `findFirstUnextractedMessageId`: tagged
with its source position and a top-level `swipeId` (compared against the
canonical swipe id in the source code). -/
structure StoredSnapshot where
  source : Position
  swipeId : Nat
  deriving Repr, DecidableEq

/-- Modelled from the spec: the `EventStore` class is not under `src/`;
§4.1/§4.3 describe it as an append-only soft-deletable event collection
plus a snapshot store. Only the parts read by the embedded code are kept:
the snapshot list and the event list. -/
structure EventStore where
  snapshots : List StoredSnapshot
  events : List StoredEvent

/-- Modelled from the spec (§4.1): `getActiveEvents()` returns all events
with `deleted = false`, in log order. -/
def EventStore.getActiveEvents (store : EventStore) : List StoredEvent :=
  store.events.filter (fun e => !e.deleted)

/-- The set of covered message ids built by `findFirstUnextractedMessageId`
(`src/commands/helpers.ts` lines 70-87): message ids of snapshots whose
`swipeId` matches the canonical swipe id of their own source message, plus
message ids of active events whose `source.swipeId` matches likewise.
The JS `Set` is modelled as a list queried through `contains`. -/
def coveredMessageIds (store : EventStore) (swipeContext : SwipeContext) : List Nat :=
  store.snapshots.filterMap (fun s =>
    if s.swipeId = swipeContext.getCanonicalSwipeId s.source.messageId then
      some s.source.messageId
    else none)
  ++ store.getActiveEvents.filterMap (fun e =>
    if e.source.swipeId = swipeContext.getCanonicalSwipeId e.source.messageId then
      some e.source.messageId
    else none)

/-- The forward walk of `findFirstUnextractedMessageId` (lines 89-96):
from `i`, return the first index `< totalMessages` not in `covered`, else
`totalMessages`. -/
def scanUncovered (covered : List Nat) (totalMessages : Nat) (i : Nat) : Nat :=
  if i < totalMessages then
    if covered.contains i then scanUncovered covered totalMessages (i + 1) else i
  else totalMessages
termination_by totalMessages - i

/-- Function `findFirstUnextractedMessageId` from `src/commands/helpers.ts`: the
first message id on the canonical swipe path, starting from 1, that has no
snapshot and no active events; `totalMessages` if all are covered. -/
def findFirstUnextractedMessageId (store : EventStore) (swipeContext : SwipeContext)
    (totalMessages : Nat) : Nat :=
  scanUncovered (coveredMessageIds store swipeContext) totalMessages 1

/-- A message id is covered in the sense of `findFirstUnextractedMessageId`:
some snapshot or some active (non-deleted) event at that message carries
the swipe id that is canonical for that same message. -/
def CoveredAt (store : EventStore) (swipeContext : SwipeContext) (i : Nat) : Prop :=
  (∃ s ∈ store.snapshots,
      s.source.messageId = i ∧ s.swipeId = swipeContext.getCanonicalSwipeId i)
  ∨ (∃ e ∈ store.events,
      e.deleted = false ∧ e.source.messageId = i
        ∧ e.source.swipeId = swipeContext.getCanonicalSwipeId i)

/-- Milestone data for chapters: one computed chapter milestone
(`pair + subject + optional description`, see the test factories). -/
structure ChapterMilestone where
  pair : String × String
  subject : String
  description : Option String
  deriving Repr, DecidableEq

/-- Modelled from the spec: `ComputedChapter` (from
`src/v2/narrative/computeChapters`, not under `src/`) as consumed by the
embedded injectors and shown by the test factories: index, title, summary,
end reason (`null` while open), ending position, milestones. -/
structure ComputedChapter where
  index : Nat
  title : String
  summary : String
  endReason : Option String
  endedAtMessage : Option Position
  milestones : List ChapterMilestone
  deriving Repr, DecidableEq

/-- The scanning pass of `getChapterAtMessage`
(`src/v2/injectors/events.ts` lines 234-249): walk the chapters; an ended
chapter claims the message if `messageId <= endedAtMessage.messageId`, an
open chapter claims it unconditionally. -/
def getChapterScan (messageId : Nat) : List ComputedChapter → Option Nat
  | [] => none
  | c :: rest =>
    match c.endedAtMessage with
    | some p => if messageId ≤ p.messageId then some c.index else getChapterScan messageId rest
    | none => some c.index

/-- Function `getChapterAtMessage` from `src/v2/injectors/events.ts`: the chapter
index a message belongs to, falling back to the index of the last chapter, or 0
for an empty chapter list. -/
def getChapterAtMessage (messageId : Nat) (chapters : List ComputedChapter) : Nat :=
  match getChapterScan messageId chapters with
  | some i => i
  | none =>
    match chapters.getLast? with
    | some c => c.index
    | none => 0

/-- The predicate "this chapter contains the message": the chapter is still
open, or it ended at or after the message. -/
def chapterContains (messageId : Nat) (c : ComputedChapter) : Bool :=
  match c.endedAtMessage with
  | some p => messageId ≤ p.messageId
  | none => true

/-- A narrative event subject (`NarrativeEventSubject` from
`src/v2/types/snapshot`, shape as consumed by the formatting code):
milestone flag, character pair, subject key, optional rich description. -/
structure NarrativeEventSubject where
  isMilestone : Bool
  pair : String × String
  subject : String
  milestoneDescription : Option String
  deriving Repr, DecidableEq

/-- A narrative event (`NarrativeEvent` from `src/v2/types/snapshot`) as
consumed by the injectors: display description, subjects, source position. -/
structure NarrativeEvent where
  description : String
  subjects : List NarrativeEventSubject
  source : Position
  deriving Repr, DecidableEq

/-- The narrative-derivation collaborators of the injectors. Modelled from
the spec: `computeNarrativeEvents`, `computeAllChapters` and
`getCurrentChapterIndex` (from `src/v2/narrative`, not under `src/`) derive
chapter aggregates and display-ready events from the store on the
canonical path (§4.5, §2); `getMilestoneDisplayName` (from
`src/v2/store/projection`, not under `src/`) maps a milestone subject key
to a display name. They are abstracted as explicit function parameters. -/
structure NarrativeDeps where
  computeNarrativeEvents : EventStore → SwipeContext → Nat → List NarrativeEvent
  computeAllChapters : EventStore → SwipeContext → List ComputedChapter
  getCurrentChapterIndex : EventStore → SwipeContext → Nat
  getMilestoneDisplayName : String → String

/-- JS `array.slice(-n)`: the last `n` elements; for `n = 0` the whole
array, since `slice(-0)` is `slice(0)`. -/
def sliceNeg (n : Nat) (xs : List α) : List α :=
  if n = 0 then xs else xs.drop (xs.length - n)

/-- Function `formatMilestoneSubject` from `src/v2/injectors/events.ts`. -/
def formatMilestoneSubject (deps : NarrativeDeps) (subject : NarrativeEventSubject) : String :=
  if !subject.isMilestone then ""
  else
    let pairStr := subject.pair.1 ++ " & " ++ subject.pair.2
    let displayName := deps.getMilestoneDisplayName subject.subject
    match subject.milestoneDescription with
    | some d =>
      if d = "" then pairStr ++ ": " ++ displayName
      else pairStr ++ " - " ++ displayName ++ ": " ++ d
    | none => pairStr ++ ": " ++ displayName

/-- Function `formatEventForInjection` from `src/v2/injectors/events.ts`: the event
description plus one `[Milestone: ...]` line per milestone subject. -/
def formatEventForInjection (deps : NarrativeDeps) (event : NarrativeEvent)
    (includeFullMilestones : Bool) : String :=
  let parts : List String := ["- " ++ event.description]
  let parts :=
    if includeFullMilestones then
      let milestones :=
        ((event.subjects.filter (fun s => s.isMilestone)).map
          (formatMilestoneSubject deps)).filter (fun m => m ≠ "")
      parts ++ milestones.map (fun m => "  [Milestone: " ++ m ++ "]")
    else parts
  String.intercalate "\n" parts

/-- Function `getOutOfContextEvents` from `src/v2/injectors/events.ts`: the
narrative events of the chapter whose messages are before
`firstMessageInContext`. -/
def getOutOfContextEvents (deps : NarrativeDeps) (store : EventStore)
    (swipeContext : SwipeContext) (currentChapter : Nat)
    (firstMessageInContext : Nat) : List NarrativeEvent :=
  (deps.computeNarrativeEvents store swipeContext currentChapter).filter
    (fun event => event.source.messageId < firstMessageInContext)

/-- Function `formatOutOfContextEvents` from `src/v2/injectors/events.ts`. -/
def formatOutOfContextEvents (deps : NarrativeDeps) (events : List NarrativeEvent)
    (maxEvents : Nat) : String :=
  if events = [] then ""
  else
    String.intercalate "\n"
      ((sliceNeg maxEvents events).map (fun e => formatEventForInjection deps e true))

/-- Function `getAllCurrentChapterEvents` from `src/v2/injectors/events.ts`. -/
def getAllCurrentChapterEvents (deps : NarrativeDeps) (store : EventStore)
    (swipeContext : SwipeContext) (currentChapter : Nat) : List NarrativeEvent :=
  deps.computeNarrativeEvents store swipeContext currentChapter

/-- Function `formatPair` from `src/v2/injectors/chapters.ts`. -/
def formatPair (pair : String × String) : String :=
  pair.1 ++ " & " ++ pair.2

/-- The JS `Map<string, string[]>` grouping used by `formatMilestones`:
push the value onto the existing key, else append a fresh binding, keeping
insertion order. -/
def assocPush (acc : List (String × List String)) (k : String) (v : String) :
    List (String × List String) :=
  match acc with
  | [] => [(k, [v])]
  | (k2, vs) :: rest =>
    if k2 = k then (k2, vs ++ [v]) :: rest else (k2, vs) :: assocPush rest k v

/-- Function `formatMilestones` from `src/v2/injectors/chapters.ts`: milestones
grouped by pair key, one `Pair: names` part per pair, joined by `; `. -/
def formatMilestones (deps : NarrativeDeps) (milestones : List ChapterMilestone) : String :=
  if milestones = [] then ""
  else
    let byPair := milestones.foldl
      (fun acc m =>
        assocPush acc (m.pair.1 ++ "|" ++ m.pair.2) (deps.getMilestoneDisplayName m.subject))
      []
    String.intercalate "; "
      (byPair.map (fun kv =>
        let parts := kv.1.splitOn "|"
        formatPair (parts.getD 0 "", parts.getD 1 "") ++ ": " ++ String.intercalate ", " kv.2))

/-- Function `formatPastChapter` from `src/v2/injectors/chapters.ts`: header line,
then summary and milestone lines when non-empty. -/
def formatPastChapter (deps : NarrativeDeps) (chapter : ComputedChapter) : String :=
  let lines : List String := ["Chapter " ++ toString (chapter.index + 1) ++ ": " ++ chapter.title]
  let lines := if chapter.summary ≠ "" then lines ++ ["  " ++ chapter.summary] else lines
  let milestonesStr := formatMilestones deps chapter.milestones
  let lines := if milestonesStr ≠ "" then lines ++ ["  Milestones: " ++ milestonesStr] else lines
  String.intercalate "\n" lines

/-- Function `formatPrecomputedChapters` from `src/v2/injectors/chapters.ts`. -/
def formatPrecomputedChapters (deps : NarrativeDeps) (chapters : List ComputedChapter) : String :=
  if chapters = [] then ""
  else String.intercalate "\n" (chapters.map (formatPastChapter deps))

/-- Function `formatPastChapters` from `src/v2/injectors/chapters.ts`: completed
chapters only, capped by `slice(-maxChapters)`. -/
def formatPastChapters (deps : NarrativeDeps) (store : EventStore)
    (swipeContext : SwipeContext) (maxChapters : Nat) : String :=
  let allChapters := deps.computeAllChapters store swipeContext
  let completedChapters := allChapters.filter (fun ch => ch.endReason.isSome)
  if completedChapters = [] then ""
  else
    String.intercalate "\n"
      ((sliceNeg maxChapters completedChapters).map (formatPastChapter deps))

/-- Function `formatPastChaptersWithTags` from `src/v2/injectors/chapters.ts`. -/
def formatPastChaptersWithTags (deps : NarrativeDeps) (store : EventStore)
    (swipeContext : SwipeContext) (maxChapters : Nat) : String :=
  let content := formatPastChapters deps store swipeContext maxChapters
  if content = "" then ""
  else "[Story So Far]\n" ++ content ++ "\n[/Story So Far]"

/-- Record `ContextPlan.breakdown` from `src/v2/injectors/contextBudget`. -/
structure ContextBreakdown where
  pastChaptersTokens : Nat
  currentChapterEventsTokens : Nat
  stateTokens : Nat
  deriving Repr, DecidableEq

/-- Record `ContextPlan` from `src/v2/injectors/contextBudget`: the result of the
optimal context computation. -/
structure ContextPlan where
  firstMessageInContext : Nat
  pastChapters : List ComputedChapter
  currentChapterEvents : List NarrativeEvent
  effectiveCurrentChapter : Nat
  totalTokens : Nat
  breakdown : ContextBreakdown
  deriving Repr, DecidableEq

/-- Record `ContextBudgetOptions` from `src/v2/injectors/contextBudget`. The token
counter is the (async, host-supplied) `TokenCounter.countTokens`, modelled
as a pure function; `messageTokens` is the `Map<number, number>` modelled
as an optional lookup. -/
structure ContextBudgetOptions where
  budget : Nat
  stateTokens : Nat
  messageTokens : Nat → Option Nat
  store : EventStore
  swipeContext : SwipeContext
  maxPastChapters : Nat
  maxEvents : Nat
  totalMessages : Nat
  tokenCounter : String → Nat

/-- A JS `Map<number, number>` written with `set` (later bindings win),
modelled as an association list where `get` takes the last binding. -/
def mapGetLast (m : List (Nat × Nat)) (k : Nat) : Option Nat :=
  (m.reverse.find? (fun kv => kv.1 = k)).map (fun kv => kv.2)

/-- The `chapterTokenCosts` map precomputed by `computeOptimalContext`
(lines 319-326): one `set` per completed chapter, keyed by chapter index,
valued at the token count of its `formatPastChapter` formatting. -/
def chapterTokenCosts (deps : NarrativeDeps) (opts : ContextBudgetOptions) :
    List (Nat × Nat) :=
  ((deps.computeAllChapters opts.store opts.swipeContext).filter
      (fun ch => ch.endReason.isSome)).map
    (fun ch => (ch.index, opts.tokenCounter (formatPastChapter deps ch)))

/-- Step 1 of the loop body: the effective current chapter of the first
message in context. -/
def effectiveChapterAt (deps : NarrativeDeps) (opts : ContextBudgetOptions)
    (firstMessageInContext : Nat) : Nat :=
  getChapterAtMessage firstMessageInContext
    (deps.computeAllChapters opts.store opts.swipeContext)

/-- Step 2 of the loop body: completed chapters strictly before the
effective current chapter, capped by `slice(-maxPastChapters)`. -/
def pastChaptersAt (deps : NarrativeDeps) (opts : ContextBudgetOptions)
    (firstMessageInContext : Nat) : List ComputedChapter :=
  sliceNeg opts.maxPastChapters
    ((deps.computeAllChapters opts.store opts.swipeContext).filter
      (fun ch => ch.endReason.isSome
        && ch.index < effectiveChapterAt deps opts firstMessageInContext))

/-- Step 3 of the loop body: out-of-context events of the effective current
chapter, capped by `slice(-maxEvents)`. -/
def outOfContextEventsAt (deps : NarrativeDeps) (opts : ContextBudgetOptions)
    (firstMessageInContext : Nat) : List NarrativeEvent :=
  sliceNeg opts.maxEvents
    (getOutOfContextEvents deps opts.store opts.swipeContext
      (effectiveChapterAt deps opts firstMessageInContext) firstMessageInContext)

/-- Step 4 of the loop body: token cost of the capped past chapters,
including the `[Story So Far]` tag overhead when non-empty. -/
def pastChaptersTokensAt (deps : NarrativeDeps) (opts : ContextBudgetOptions)
    (firstMessageInContext : Nat) : Nat :=
  let base := (pastChaptersAt deps opts firstMessageInContext).foldl
    (fun acc ch => acc + (mapGetLast (chapterTokenCosts deps opts) ch.index).getD 0) 0
  if pastChaptersAt deps opts firstMessageInContext ≠ [] then
    base + opts.tokenCounter "[Story So Far]\n\n[/Story So Far]"
  else base

/-- Step 4 of the loop body: token cost of the capped out-of-context
events, including the `[Recent Events]` tag overhead when non-empty. -/
def eventsTokensAt (deps : NarrativeDeps) (opts : ContextBudgetOptions)
    (firstMessageInContext : Nat) : Nat :=
  let base := (outOfContextEventsAt deps opts firstMessageInContext).foldl
    (fun acc e => acc + opts.tokenCounter (formatEventForInjection deps e true)) 0
  if outOfContextEventsAt deps opts firstMessageInContext ≠ [] then
    base + opts.tokenCounter "[Recent Events]\n\n[/Recent Events]"
  else base

/-- Step 5 of the loop body: token cost of all messages from
`firstMessageInContext` through `totalMessages - 1` (missing map entries
count 0). -/
def messageTokensAt (opts : ContextBudgetOptions) (firstMessageInContext : Nat) : Nat :=
  (List.range' firstMessageInContext (opts.totalMessages - firstMessageInContext)).foldl
    (fun acc i => acc + (opts.messageTokens i).getD 0) 0

/-- Step 6 of the loop body: the total cost tried against the budget at a
given `firstMessageInContext`. -/
def totalCostAt (deps : NarrativeDeps) (opts : ContextBudgetOptions)
    (firstMessageInContext : Nat) : Nat :=
  opts.stateTokens
    + pastChaptersTokensAt deps opts firstMessageInContext
    + eventsTokensAt deps opts firstMessageInContext
    + messageTokensAt opts firstMessageInContext

/-- The plan returned by the within-budget branch (lines 401-415). -/
def fitPlanAt (deps : NarrativeDeps) (opts : ContextBudgetOptions)
    (firstMessageInContext : Nat) : ContextPlan where
  firstMessageInContext := firstMessageInContext
  pastChapters := pastChaptersAt deps opts firstMessageInContext
  currentChapterEvents := outOfContextEventsAt deps opts firstMessageInContext
  effectiveCurrentChapter := effectiveChapterAt deps opts firstMessageInContext
  totalTokens := totalCostAt deps opts firstMessageInContext
  breakdown :=
    { pastChaptersTokens := pastChaptersTokensAt deps opts firstMessageInContext
      currentChapterEventsTokens := eventsTokensAt deps opts firstMessageInContext
      stateTokens := opts.stateTokens }

/-- The minimal plan returned when all messages are pushed out
(lines 421-435). -/
def minimalPlan (deps : NarrativeDeps) (opts : ContextBudgetOptions) : ContextPlan where
  firstMessageInContext := opts.totalMessages
  pastChapters := []
  currentChapterEvents := []
  effectiveCurrentChapter := deps.getCurrentChapterIndex opts.store opts.swipeContext
  totalTokens := opts.stateTokens
  breakdown :=
    { pastChaptersTokens := 0, currentChapterEventsTokens := 0, stateTokens := opts.stateTokens }

/-- The best-effort plan returned after the loop exits without fitting
(convergence break or iteration cap, lines 438-452). -/
def bestEffortPlan (deps : NarrativeDeps) (opts : ContextBudgetOptions)
    (firstMessageInContext : Nat) : ContextPlan where
  firstMessageInContext := firstMessageInContext
  pastChapters := []
  currentChapterEvents := []
  effectiveCurrentChapter := deps.getCurrentChapterIndex opts.store opts.swipeContext
  totalTokens := opts.stateTokens
  breakdown :=
    { pastChaptersTokens := 0, currentChapterEventsTokens := 0, stateTokens := opts.stateTokens }

/-- The `totalMessages = 0` edge-case plan (lines 298-312). -/
def emptyMessagesPlan (opts : ContextBudgetOptions) : ContextPlan where
  firstMessageInContext := 0
  pastChapters := []
  currentChapterEvents := []
  effectiveCurrentChapter := 0
  totalTokens := opts.stateTokens
  breakdown :=
    { pastChaptersTokens := 0, currentChapterEventsTokens := 0, stateTokens := opts.stateTokens }

/-- The `while (iterations < maxIterations)` scan of `computeOptimalContext`
(lines 334-436): `fuel` counts the remaining allowed iterations,
`previousFirstMessage` starts at `-1` and is used for the convergence
break. Within budget returns the fit plan; over budget pushes out the
oldest message, returning the minimal plan once all messages are out. -/
def budgetScan (deps : NarrativeDeps) (opts : ContextBudgetOptions) :
    Nat → Nat → Int → ContextPlan
  | 0, firstMessageInContext, _ => bestEffortPlan deps opts firstMessageInContext
  | fuel + 1, firstMessageInContext, previousFirstMessage =>
    if (firstMessageInContext : Int) = previousFirstMessage then
      bestEffortPlan deps opts firstMessageInContext
    else if totalCostAt deps opts firstMessageInContext ≤ opts.budget then
      fitPlanAt deps opts firstMessageInContext
    else if firstMessageInContext + 1 ≥ opts.totalMessages then
      minimalPlan deps opts
    else
      budgetScan deps opts fuel (firstMessageInContext + 1) (firstMessageInContext : Int)

/-- Function `computeOptimalContext` with an explicit iteration cap (the source
fixes the cap at `totalMessages + 10`). -/
def computeOptimalContextFuel (deps : NarrativeDeps) (opts : ContextBudgetOptions)
    (maxIterations : Nat) : ContextPlan :=
  if opts.totalMessages = 0 then emptyMessagesPlan opts
  else budgetScan deps opts maxIterations 0 (-1)

/-- Function `computeOptimalContext` from `src/v2/injectors/contextBudget`
(`events.ts` lines 285-452): iteration cap `totalMessages + 10`, scan
starting at `firstMessageInContext = 0` with `previousFirstMessage = -1`. -/
def computeOptimalContext (deps : NarrativeDeps) (opts : ContextBudgetOptions) : ContextPlan :=
  computeOptimalContextFuel deps opts (opts.totalMessages + 10)

/-- A chat message as seen by the macro handlers (only the chat length is
read). -/
structure STMessage where
  mes : String

/-- The host context consumed by the macro handlers (`SillyTavern.getContext()`). -/
structure STContext where
  chat : List STMessage

/-- The `v2Track` settings toggles. -/
structure V2TrackFlags where
  time : Bool
  location : Bool
  climate : Bool
  characters : Bool
  relationships : Bool
  scene : Bool

/-- The V2 settings fields read by the macro handlers. -/
structure V2Settings where
  v2Track : V2TrackFlags
  v2MaxRecentChapters : Nat
  v2MaxRecentEvents : Nat

/-- The options record passed to `formatStateForInjection`. -/
structure StateInjectionOptions where
  includeTime : Bool
  includeLocation : Bool
  includeClimate : Bool
  includeCharacters : Bool
  includeRelationships : Bool
  includeScene : Bool
  includeChapters : Bool
  includeEvents : Bool

/-- Modelled from the spec: the `Projection` produced by
`projectStateAtMessage` (§3, §4.4) is a full point-in-time state bundle;
the macro handlers only read its `currentChapter` field, so only that
field is kept. -/
structure Projection where
  currentChapter : Nat

/-- The bridge functions registered by `registerMacroBridgeFunctions`
(`src/v2/injectors/macros.ts` lines 19-37). Each is host-backed and may
throw, modelled as `Except`. -/
structure MacroBridgeFunctions where
  getV2EventStore : Except String (Option EventStore)
  hasV2InitialSnapshot : Except String Bool
  buildSwipeContext : STContext → Except String SwipeContext

/-- The ambient state the macro handlers depend on: the registered bridge
functions (or `null`), the host `SillyTavern.getContext()` call, the
settings, and the external projection/formatting collaborators
(`projectStateAtMessage` from the `EventStore` class and
`formatStateForInjection` from `src/v2/injectors/state`, both not under
`src/` and modelled from the spec as fallible calls). -/
structure MacroEnv where
  bridgeFunctions : Option MacroBridgeFunctions
  getContext : Except String STContext
  getV2Settings : V2Settings
  deps : NarrativeDeps
  projectStateAtMessage : EventStore → Nat → SwipeContext → Except String Projection
  formatStateForInjection :
    Projection → EventStore → SwipeContext → StateInjectionOptions → Except String String

/-- Function `getStoreAndContext` from `src/v2/injectors/macros.ts` (lines 43-63):
`null` when bridge functions are unregistered, the store is `null`, there
is no initial snapshot, or any of the host calls throws (the internal
`try/catch`). -/
def getStoreAndContext (env : MacroEnv) :
    Option (EventStore × SwipeContext × STContext) :=
  match env.bridgeFunctions with
  | none => none
  | some bf =>
    match bf.getV2EventStore with
    | Except.error _ => none
    | Except.ok none => none
    | Except.ok (some store) =>
      match bf.hasV2InitialSnapshot with
      | Except.error _ => none
      | Except.ok false => none
      | Except.ok true =>
        match env.getContext with
        | Except.error _ => none
        | Except.ok stContext =>
          match bf.buildSwipeContext stContext with
          | Except.error _ => none
          | Except.ok swipeContext => some (store, swipeContext, stContext)

/-- The try/catch wrapper of both macro handlers: a caught exception
degrades to an empty string. -/
def catchAsEmpty (x : Except String String) : Except String String :=
  match x with
  | Except.ok s => Except.ok s
  | Except.error _ => Except.ok ""

/-- The `try` body of `btStateHandler` (lines 79-97): bail out with an
empty string when fewer than two chat messages exist, otherwise project at
the second-to-last message and format the state. -/
def btStateBody (env : MacroEnv) (store : EventStore) (swipeContext : SwipeContext)
    (stContext : STContext) (settings : V2Settings) : Except String String :=
  let lastMessageId : Int := (stContext.chat.length : Int) - 1
  let projectionMessageId : Int := lastMessageId - 1
  if projectionMessageId < 0 then Except.ok ""
  else
    match env.projectStateAtMessage store projectionMessageId.toNat swipeContext with
    | Except.error e => Except.error e
    | Except.ok projection =>
      env.formatStateForInjection projection store swipeContext
        { includeTime := settings.v2Track.time
          includeLocation := settings.v2Track.location
          includeClimate := settings.v2Track.climate
          includeCharacters := settings.v2Track.characters
          includeRelationships := settings.v2Track.relationships
          includeScene := settings.v2Track.scene
          includeChapters := false
          includeEvents := false }

/-- Function `btStateHandler` from `src/v2/injectors/macros.ts` (lines 70-102). -/
def btStateHandler (env : MacroEnv) : Except String String :=
  match getStoreAndContext env with
  | none => Except.ok ""
  | some (store, swipeContext, stContext) =>
    let settings := env.getV2Settings
    catchAsEmpty (btStateBody env store swipeContext stContext settings)

/-- The `try` body of `btNarrativeHandler` (lines 117-155): project at the
second-to-last message, then assemble the Story So Far and Recent Events
sections. -/
def btNarrativeBody (env : MacroEnv) (store : EventStore) (swipeContext : SwipeContext)
    (stContext : STContext) (settings : V2Settings) : Except String String :=
  let lastMessageId : Int := (stContext.chat.length : Int) - 1
  let projectionMessageId : Int := lastMessageId - 1
  if projectionMessageId < 0 then Except.ok ""
  else
    match env.projectStateAtMessage store projectionMessageId.toNat swipeContext with
    | Except.error e => Except.error e
    | Except.ok projection =>
      let sections : List String := []
      let chaptersContent :=
        formatPastChaptersWithTags env.deps store swipeContext settings.v2MaxRecentChapters
      let sections := if chaptersContent ≠ "" then sections ++ [chaptersContent] else sections
      let events :=
        getAllCurrentChapterEvents env.deps store swipeContext projection.currentChapter
      let sections :=
        if events ≠ [] then
          let eventsContent := formatOutOfContextEvents env.deps events settings.v2MaxRecentEvents
          if eventsContent ≠ "" then
            sections ++ ["[Recent Events]\n" ++ eventsContent ++ "\n[/Recent Events]"]
          else sections
        else sections
      Except.ok (String.intercalate "\n\n" sections)

/-- Function `btNarrativeHandler` from `src/v2/injectors/macros.ts` (lines 108-160). -/
def btNarrativeHandler (env : MacroEnv) : Except String String :=
  match getStoreAndContext env with
  | none => Except.ok ""
  | some (store, swipeContext, stContext) =>
    let settings := env.getV2Settings
    catchAsEmpty (btNarrativeBody env store swipeContext stContext settings)

/-- A swipe context where swipe 0 is canonical everywhere (as in the test
factories). -/
def exSwipe : SwipeContext where
  getCanonicalSwipeId := fun _ => 0

/-- An empty event store. -/
def exStore : EventStore where
  snapshots := []
  events := []

/-- Narrative collaborators deriving nothing: no events, no chapters. -/
def exDeps : NarrativeDeps where
  computeNarrativeEvents := fun _ _ _ => []
  computeAllChapters := fun _ _ => []
  getCurrentChapterIndex := fun _ _ => 0
  getMilestoneDisplayName := fun s => s

/-- Options with one 5-token message and a comfortable budget. -/
def exOptsFit : ContextBudgetOptions where
  budget := 10
  stateTokens := 1
  messageTokens := fun i => if i = 0 then some 5 else none
  store := exStore
  swipeContext := exSwipe
  maxPastChapters := 3
  maxEvents := 5
  totalMessages := 1
  tokenCounter := fun _ => 0

/-- Options where even the state alone exceeds the budget. -/
def exOptsOver : ContextBudgetOptions where
  budget := 0
  stateTokens := 1
  messageTokens := fun i => if i = 0 then some 5 else none
  store := exStore
  swipeContext := exSwipe
  maxPastChapters := 3
  maxEvents := 5
  totalMessages := 1
  tokenCounter := fun _ => 0

/-- Options for an empty chat. -/
def exOptsEmpty : ContextBudgetOptions where
  budget := 500
  stateTokens := 100
  messageTokens := fun _ => none
  store := exStore
  swipeContext := exSwipe
  maxPastChapters := 5
  maxEvents := 15
  totalMessages := 0
  tokenCounter := fun _ => 0

/-- A completed chapter with index 0, ended at message 1. -/
def cexChapter0 : ComputedChapter where
  index := 0
  title := "A"
  summary := ""
  endReason := some "location_change"
  endedAtMessage := some { messageId := 1, swipeId := 0 }
  milestones := []

/-- A completed chapter with index 1, ended at message 3. -/
def cexChapter1 : ComputedChapter where
  index := 1
  title := "B"
  summary := ""
  endReason := some "time_jump"
  endedAtMessage := some { messageId := 3, swipeId := 0 }
  milestones := []

/-- The open current chapter with index 2. -/
def cexChapter2 : ComputedChapter where
  index := 2
  title := "C"
  summary := ""
  endReason := none
  endedAtMessage := none
  milestones := []

/-- Narrative collaborators with two completed chapters before the open
chapter 2 and no narrative events. -/
def cexDeps : NarrativeDeps where
  computeNarrativeEvents := fun _ _ _ => []
  computeAllChapters := fun _ _ => [cexChapter0, cexChapter1, cexChapter2]
  getCurrentChapterIndex := fun _ _ => 2
  getMilestoneDisplayName := fun s => s

/-- Options forcing the scan to push out messages 0-4 (100 tokens each
against a zero budget) so the returned plan sits in chapter 2 with both
completed chapters as past chapters. -/
def cexOpts : ContextBudgetOptions where
  budget := 0
  stateTokens := 0
  messageTokens := fun i => if i < 5 then some 100 else some 0
  store := exStore
  swipeContext := exSwipe
  maxPastChapters := 5
  maxEvents := 5
  totalMessages := 6
  tokenCounter := fun _ => 0

/-- A macro environment with no bridge functions registered and a failing
projection. -/
def exMacroEnv : MacroEnv where
  bridgeFunctions := none
  getContext := Except.error "host unavailable"
  getV2Settings :=
    { v2Track :=
        { time := true, location := true, climate := true
          characters := true, relationships := true, scene := true }
      v2MaxRecentChapters := 3
      v2MaxRecentEvents := 5 }
  deps := exDeps
  projectStateAtMessage := fun _ _ _ => Except.error "no initial snapshot"
  formatStateForInjection := fun _ _ _ _ => Except.ok ""

lemma mem_coveredMessageIds_iff (store : EventStore) (swipeContext : SwipeContext) (i : Nat) :
    i ∈ coveredMessageIds store swipeContext ↔ CoveredAt store swipeContext i := by
  unfold coveredMessageIds CoveredAt EventStore.getActiveEvents
  simp only [List.mem_append, List.mem_filterMap, List.mem_filter]
  constructor
  · rintro (⟨s, hs, h⟩ | ⟨e, ⟨he, hd⟩, h⟩)
    · left
      by_cases hc : s.swipeId = swipeContext.getCanonicalSwipeId s.source.messageId
      · rw [if_pos hc] at h
        obtain rfl := Option.some_injective _ h
        exact ⟨s, hs, rfl, hc⟩
      · rw [if_neg hc] at h
        exact absurd h (by simp)
    · right
      by_cases hc : e.source.swipeId = swipeContext.getCanonicalSwipeId e.source.messageId
      · rw [if_pos hc] at h
        obtain rfl := Option.some_injective _ h
        refine ⟨e, he, ?_, rfl, hc⟩
        simpa using hd
      · rw [if_neg hc] at h
        exact absurd h (by simp)
  · rintro (⟨s, hs, hm, hc⟩ | ⟨e, he, hd, hm, hc⟩)
    · subst hm
      exact Or.inl ⟨s, hs, by rw [if_pos hc]⟩
    · subst hm
      refine Or.inr ⟨e, ⟨he, by simp [hd]⟩, by rw [if_pos hc]⟩

lemma scanUncovered_spec (covered : List Nat) (totalMessages : Nat) :
    ∀ i, (∀ j, i ≤ j → j < scanUncovered covered totalMessages i → j ∈ covered)
      ∧ (scanUncovered covered totalMessages i < totalMessages →
          scanUncovered covered totalMessages i ∉ covered)
      ∧ min totalMessages i ≤ scanUncovered covered totalMessages i
      ∧ scanUncovered covered totalMessages i ≤ max totalMessages i := by
  intro i
  induction' hn : totalMessages - i using Nat.strong_induction_on with n ih generalizing i
  rw [scanUncovered]
  by_cases hi : i < totalMessages
  · rw [if_pos hi]
    by_cases hc : covered.contains i
    · rw [if_pos hc]
      have hlt : totalMessages - (i + 1) < n := by omega
      obtain ⟨h1, h2, h3, h4⟩ := ih _ hlt (i + 1) rfl
      refine ⟨?_, h2, by omega, by omega⟩
      intro j hij hjlt
      rcases Nat.eq_or_lt_of_le hij with rfl | hlt2
      · simpa using hc
      · exact h1 j hlt2 hjlt
    · rw [if_neg hc]
      refine ⟨fun j h1 h2 => absurd (Nat.lt_of_lt_of_le h2 h1) (Nat.lt_irrefl j), ?_,
        min_le_right _ _, le_max_right _ _⟩
      intro _ hmem
      exact hc (by simpa using hmem)
  · rw [if_neg hi]
    exact ⟨fun j h1 h2 => by omega, fun h => absurd h (Nat.lt_irrefl _), by omega, le_max_left _ _⟩

lemma getChapterScan_eq_find? (messageId : Nat) (chapters : List ComputedChapter) :
    getChapterScan messageId chapters
      = (chapters.find? (chapterContains messageId)).map (fun c => c.index) := by
  induction chapters with
  | nil => rfl
  | cons c rest ih =>
    cases hc : c.endedAtMessage with
    | some p =>
      by_cases hle : messageId ≤ p.messageId
      · simp [getChapterScan, List.find?_cons, chapterContains, hc, hle]
      · simp [getChapterScan, List.find?_cons, chapterContains, hc, hle, ih]
    | none =>
      simp [getChapterScan, List.find?_cons, chapterContains, hc]

lemma range'_find?_eq_some {p : Nat → Bool} :
    ∀ {n f g : Nat}, (List.range' f n).find? p = some g →
      f ≤ g ∧ g < f + n ∧ p g = true ∧ ∀ j, f ≤ j → j < g → p j = false := by
  intro n
  induction n with
  | zero => intro f g h; exact absurd h (by simp)
  | succ m ih =>
    intro f g h
    rw [List.range'_succ, List.find?_cons] at h
    cases hp : p f with
    | true =>
      simp only [hp, Option.some.injEq] at h
      subst h
      exact ⟨le_refl f, by omega, hp, fun j h1 h2 => by omega⟩
    | false =>
      simp only [hp] at h
      obtain ⟨h1, h2, h3, h4⟩ := ih h
      refine ⟨by omega, by omega, h3, ?_⟩
      intro j hj1 hj2
      rcases Nat.eq_or_lt_of_le hj1 with rfl | hlt
      · exact hp
      · exact h4 j hlt hj2

lemma range'_find?_eq_none {p : Nat → Bool} {n f : Nat}
    (h : (List.range' f n).find? p = none) :
    ∀ j, f ≤ j → j < f + n → p j = false := by
  intro j h1 h2
  have := List.find?_eq_none.mp h j (List.mem_range'_1.mpr ⟨h1, h2⟩)
  simpa using this

/-- The scan of `computeOptimalContext` returns the fit plan of the first
`firstMessageInContext` value that satisfies the budget, and the minimal
plan when none does, provided the fuel covers the remaining messages and
the convergence guard is not primed (`previousFirstMessage` differs from
the current value, as it always does along real executions). -/
lemma budgetScan_spec (deps : NarrativeDeps) (opts : ContextBudgetOptions) :
    ∀ fuel f prev, f < opts.totalMessages → opts.totalMessages - f ≤ fuel →
      (f : Int) ≠ prev →
      budgetScan deps opts fuel f prev =
        match (List.range' f (opts.totalMessages - f)).find?
            (fun g => totalCostAt deps opts g ≤ opts.budget) with
        | some g => fitPlanAt deps opts g
        | none => minimalPlan deps opts := by
  intro fuel
  induction fuel with
  | zero => intro f prev h1 h2 _; omega
  | succ fuel ih =>
    intro f prev h1 h2 hne
    have hm : opts.totalMessages - f = (opts.totalMessages - (f + 1)) + 1 := by omega
    rw [budgetScan, if_neg hne, hm, List.range'_succ, List.find?_cons]
    by_cases hfit : totalCostAt deps opts f ≤ opts.budget
    · rw [if_pos hfit]
      have hd : decide (totalCostAt deps opts f ≤ opts.budget) = true := decide_eq_true hfit
      simp only [hd]
    · rw [if_neg hfit]
      have hd : decide (totalCostAt deps opts f ≤ opts.budget) = false :=
        decide_eq_false hfit
      simp only [hd]
      by_cases hend : f + 1 ≥ opts.totalMessages
      · rw [if_pos hend]
        have hz : opts.totalMessages - (f + 1) = 0 := by omega
        rw [hz]
        simp [List.range']
      · rw [if_neg hend]
        have hne2 : ((f + 1 : Nat) : Int) ≠ (f : Int) := by omega
        rw [ih (f + 1) f (by omega) (by omega) hne2]

/-- For a non-empty chat, `computeOptimalContext` is the first-fit search
over `firstMessageInContext = 0, 1, ..., totalMessages - 1`. -/
lemma computeOptimalContext_eq_search (deps : NarrativeDeps) (opts : ContextBudgetOptions)
    (h : 1 ≤ opts.totalMessages) :
    computeOptimalContext deps opts =
      match (List.range' 0 opts.totalMessages).find?
          (fun g => totalCostAt deps opts g ≤ opts.budget) with
      | some g => fitPlanAt deps opts g
      | none => minimalPlan deps opts := by
  unfold computeOptimalContext computeOptimalContextFuel
  rw [if_neg (by omega)]
  have := budgetScan_spec deps opts (opts.totalMessages + 10) 0 (-1)
    (by omega) (by omega) (by omega)
  simpa using this

/-- C1: for every input with `totalMessages >= 1`, `computeOptimalContext`
terminates and the returned `firstMessageInContext` is the smallest value
`f` in `[0, totalMessages - 1]` whose total cost (state tokens + capped
past-chapter summary tokens + capped out-of-context event tokens of the
effective current chapter + tokens of all messages from `f` to the end,
i.e. `totalCostAt`) is at most the budget, and `totalMessages` when no
such `f` exists. -/
theorem computeOptimalContext_returns_least_fit (deps : NarrativeDeps)
    (opts : ContextBudgetOptions) (h : 1 ≤ opts.totalMessages) :
    (computeOptimalContext deps opts).firstMessageInContext ≤ opts.totalMessages
    ∧ ((computeOptimalContext deps opts).firstMessageInContext < opts.totalMessages →
        totalCostAt deps opts (computeOptimalContext deps opts).firstMessageInContext
          ≤ opts.budget)
    ∧ (∀ j, j < (computeOptimalContext deps opts).firstMessageInContext →
        opts.budget < totalCostAt deps opts j) := by
  rw [computeOptimalContext_eq_search deps opts h]
  cases hfind : (List.range' 0 opts.totalMessages).find?
      (fun g => totalCostAt deps opts g ≤ opts.budget) with
  | none =>
    have hall := range'_find?_eq_none hfind
    simp only [minimalPlan]
    refine ⟨le_refl _, fun hlt => absurd hlt (lt_irrefl _), ?_⟩
    intro j hj
    have := hall j (Nat.zero_le j) (by omega)
    have hnot : ¬ totalCostAt deps opts j ≤ opts.budget := of_decide_eq_false this
    omega
  | some g =>
    obtain ⟨hg1, hg2, hg3, hg4⟩ := range'_find?_eq_some hfind
    simp only [fitPlanAt]
    refine ⟨by omega, fun _ => of_decide_eq_true hg3, ?_⟩
    intro j hj
    have := hg4 j (Nat.zero_le j) hj
    have hnot : ¬ totalCostAt deps opts j ≤ opts.budget := of_decide_eq_false this
    omega

theorem computeOptimalContext_returns_least_fit_witness :
    1 ≤ exOptsFit.totalMessages
    ∧ ((computeOptimalContext exDeps exOptsFit).firstMessageInContext
          ≤ exOptsFit.totalMessages
      ∧ ((computeOptimalContext exDeps exOptsFit).firstMessageInContext
            < exOptsFit.totalMessages →
          totalCostAt exDeps exOptsFit
              (computeOptimalContext exDeps exOptsFit).firstMessageInContext
            ≤ exOptsFit.budget)
      ∧ (∀ j, j < (computeOptimalContext exDeps exOptsFit).firstMessageInContext →
          exOptsFit.budget < totalCostAt exDeps exOptsFit j)) :=
  ⟨by decide, computeOptimalContext_returns_least_fit exDeps exOptsFit (by decide)⟩

/-- C5: when `totalMessages >= 1` and no `firstMessageInContext` value
fits the budget (in particular when the state alone exceeds it),
`computeOptimalContext` still returns a plan: `firstMessageInContext =
totalMessages`, no past chapters, no events, and `totalTokens` equal to
the state cost alone. -/
theorem computeOptimalContext_minimal_plan_when_nothing_fits (deps : NarrativeDeps)
    (opts : ContextBudgetOptions) (h : 1 ≤ opts.totalMessages)
    (hover : ∀ f, f < opts.totalMessages → opts.budget < totalCostAt deps opts f) :
    (computeOptimalContext deps opts).firstMessageInContext = opts.totalMessages
    ∧ (computeOptimalContext deps opts).pastChapters = []
    ∧ (computeOptimalContext deps opts).currentChapterEvents = []
    ∧ (computeOptimalContext deps opts).totalTokens = opts.stateTokens := by
  rw [computeOptimalContext_eq_search deps opts h]
  have hnone : (List.range' 0 opts.totalMessages).find?
      (fun g => totalCostAt deps opts g ≤ opts.budget) = none := by
    rw [List.find?_eq_none]
    intro x hx
    obtain ⟨_, hx2⟩ := List.mem_range'_1.mp hx
    have := hover x (by omega)
    simp only [decide_eq_true_eq]
    omega
  rw [hnone]
  exact ⟨rfl, rfl, rfl, rfl⟩

theorem computeOptimalContext_minimal_plan_when_nothing_fits_witness :
    (1 ≤ exOptsOver.totalMessages
      ∧ ∀ f, f < exOptsOver.totalMessages →
          exOptsOver.budget < totalCostAt exDeps exOptsOver f)
    ∧ ((computeOptimalContext exDeps exOptsOver).firstMessageInContext
          = exOptsOver.totalMessages
      ∧ (computeOptimalContext exDeps exOptsOver).pastChapters = []
      ∧ (computeOptimalContext exDeps exOptsOver).currentChapterEvents = []
      ∧ (computeOptimalContext exDeps exOptsOver).totalTokens = exOptsOver.stateTokens) :=
  ⟨⟨by decide, by decide⟩,
    computeOptimalContext_minimal_plan_when_nothing_fits exDeps exOptsOver
      (by decide) (by decide)⟩

/-- C6: with `totalMessages = 0`, `computeOptimalContext` returns the plan
with `firstMessageInContext = 0`, no past chapters, no events, and
`totalTokens = stateTokens`, whatever the budget, store and swipe context. -/
theorem computeOptimalContext_empty_chat (deps : NarrativeDeps)
    (opts : ContextBudgetOptions) (h : opts.totalMessages = 0) :
    (computeOptimalContext deps opts).firstMessageInContext = 0
    ∧ (computeOptimalContext deps opts).pastChapters = []
    ∧ (computeOptimalContext deps opts).currentChapterEvents = []
    ∧ (computeOptimalContext deps opts).totalTokens = opts.stateTokens := by
  unfold computeOptimalContext computeOptimalContextFuel
  rw [if_pos h]
  exact ⟨rfl, rfl, rfl, rfl⟩

theorem computeOptimalContext_empty_chat_witness :
    exOptsEmpty.totalMessages = 0
    ∧ ((computeOptimalContext exDeps exOptsEmpty).firstMessageInContext = 0
      ∧ (computeOptimalContext exDeps exOptsEmpty).pastChapters = []
      ∧ (computeOptimalContext exDeps exOptsEmpty).currentChapterEvents = []
      ∧ (computeOptimalContext exDeps exOptsEmpty).totalTokens = exOptsEmpty.stateTokens) :=
  ⟨by decide, computeOptimalContext_empty_chat exDeps exOptsEmpty (by decide)⟩

/-- C7: the scan of `computeOptimalContext` never spins: any fuel of at
least `totalMessages` iterations yields the same result as the source cap
of `totalMessages + 10` (so the scan settles within `totalMessages`
iterations), and even with the cap exhausted the scan still returns a
plan (the best-effort plan) instead of diverging or failing. -/
theorem computeOptimalContext_fuel_sufficient (deps : NarrativeDeps)
    (opts : ContextBudgetOptions) (fuel : Nat) (h : opts.totalMessages ≤ fuel) :
    computeOptimalContextFuel deps opts fuel = computeOptimalContext deps opts
    ∧ ∀ f prev, budgetScan deps opts 0 f prev = bestEffortPlan deps opts f := by
  constructor
  · by_cases h0 : opts.totalMessages = 0
    · unfold computeOptimalContext computeOptimalContextFuel
      rw [if_pos h0, if_pos h0]
    · have h1 : 1 ≤ opts.totalMessages := by omega
      rw [computeOptimalContext_eq_search deps opts h1]
      unfold computeOptimalContextFuel
      rw [if_neg h0]
      have := budgetScan_spec deps opts fuel 0 (-1) (by omega) (by omega) (by omega)
      simpa using this
  · intro f prev
    rfl

theorem computeOptimalContext_fuel_sufficient_witness :
    exOptsFit.totalMessages ≤ 1
    ∧ (computeOptimalContextFuel exDeps exOptsFit 1 = computeOptimalContext exDeps exOptsFit
      ∧ ∀ f prev, budgetScan exDeps exOptsFit 0 f prev = bestEffortPlan exDeps exOptsFit f) :=
  ⟨by decide, computeOptimalContext_fuel_sufficient exDeps exOptsFit 1 (by decide)⟩

/-- C8: `getChapterAtMessage` returns the index of the first chapter that
contains the message - the first chapter whose end position is at or after
the message (a message at the ending message still belongs to that
chapter), or the first open chapter encountered when no earlier ended
chapter contains it - falling back to the last chapter index, and to 0 for
an empty chapter list. -/
theorem getChapterAtMessage_first_containing (messageId : Nat)
    (chapters : List ComputedChapter) :
    getChapterAtMessage messageId chapters =
      match chapters.find? (chapterContains messageId) with
      | some c => c.index
      | none =>
        match chapters.getLast? with
        | some c => c.index
        | none => 0 := by
  unfold getChapterAtMessage
  rw [getChapterScan_eq_find?]
  cases chapters.find? (chapterContains messageId) <;> rfl

/-- C3: `getOutOfContextEvents` returns exactly the narrative events of
the chapter whose source message id is strictly below
`firstMessageInContext`; an event exactly at `firstMessageInContext` is
excluded. -/
theorem getOutOfContextEvents_mem_iff (deps : NarrativeDeps) (store : EventStore)
    (swipeContext : SwipeContext) (currentChapter : Nat) (firstMessageInContext : Nat) :
    ∀ e, e ∈ getOutOfContextEvents deps store swipeContext currentChapter
            firstMessageInContext
      ↔ (e ∈ deps.computeNarrativeEvents store swipeContext currentChapter
          ∧ e.source.messageId < firstMessageInContext) := by
  intro e
  simp [getOutOfContextEvents, List.mem_filter]

/-- The pastChapters cap: with a positive `maxPastChapters`,
`slice(-maxPastChapters)` keeps at most `maxPastChapters` elements. -/
lemma sliceNeg_length_le {α : Type} (n : Nat) (xs : List α) (h : 1 ≤ n) :
    (sliceNeg n xs).length ≤ n := by
  unfold sliceNeg
  rw [if_neg (by omega)]
  rw [List.length_drop]
  omega

/-- C4 (counterexample): the claim says past chapters are listed most
recent first; on an input whose plan has completed chapters 0 and 1 before
the effective current chapter 2, the returned `pastChapters` is `[0, 1]`
(ascending, most recent last), not `[1, 0]`. -/
theorem computeOptimalContext_pastChapters_order_counterexample :
    (computeOptimalContext cexDeps cexOpts).pastChapters.map (fun ch => ch.index) = [0, 1]
    ∧ (computeOptimalContext cexDeps cexOpts).pastChapters.map (fun ch => ch.index)
        ≠ [1, 0] := by
  constructor
  · decide
  · decide

/-- C4 (amended): in every plan `computeOptimalContext` returns with
`firstMessageInContext < totalMessages`, `pastChapters` is exactly the
completed chapters (non-null `endReason`) with index strictly below the
effective current chapter, capped by `slice(-maxPastChapters)` to the most
recent `maxPastChapters` of them (at most `maxPastChapters` when the cap
is positive), and listed in ascending chapter order - most recent last,
not first. -/
theorem computeOptimalContext_pastChapters_ascending (deps : NarrativeDeps)
    (opts : ContextBudgetOptions) (hmax : 1 ≤ opts.maxPastChapters)
    (hsorted : (deps.computeAllChapters opts.store opts.swipeContext).Pairwise
      (fun a b => a.index < b.index))
    (hlt : (computeOptimalContext deps opts).firstMessageInContext < opts.totalMessages) :
    (computeOptimalContext deps opts).pastChapters
      = sliceNeg opts.maxPastChapters
          ((deps.computeAllChapters opts.store opts.swipeContext).filter
            (fun ch => ch.endReason.isSome
              && ch.index < (computeOptimalContext deps opts).effectiveCurrentChapter))
    ∧ (computeOptimalContext deps opts).pastChapters.length ≤ opts.maxPastChapters
    ∧ (computeOptimalContext deps opts).pastChapters.Pairwise
        (fun a b => a.index < b.index) := by
  have h1 : 1 ≤ opts.totalMessages := by omega
  rw [computeOptimalContext_eq_search deps opts h1] at hlt ⊢
  cases hfind : (List.range' 0 opts.totalMessages).find?
      (fun g => totalCostAt deps opts g ≤ opts.budget) with
  | none =>
    rw [hfind] at hlt
    simp only [minimalPlan] at hlt
    omega
  | some g =>
    rw [hfind] at hlt
    have hpair : ((deps.computeAllChapters opts.store opts.swipeContext).filter
        (fun ch => ch.endReason.isSome
          && ch.index < effectiveChapterAt deps opts g)).Pairwise
        (fun a b => a.index < b.index) := hsorted.filter _
    refine ⟨rfl, ?_, ?_⟩
    · exact sliceNeg_length_le _ _ hmax
    · show (pastChaptersAt deps opts g).Pairwise (fun a b => a.index < b.index)
      unfold pastChaptersAt sliceNeg
      by_cases hz : opts.maxPastChapters = 0
      · rw [if_pos hz]
        exact hpair
      · rw [if_neg hz]
        exact hpair.drop

theorem computeOptimalContext_pastChapters_ascending_witness :
    (1 ≤ cexOpts.maxPastChapters
      ∧ (cexDeps.computeAllChapters cexOpts.store cexOpts.swipeContext).Pairwise
          (fun a b => a.index < b.index)
      ∧ (computeOptimalContext cexDeps cexOpts).firstMessageInContext
          < cexOpts.totalMessages)
    ∧ ((computeOptimalContext cexDeps cexOpts).pastChapters
        = sliceNeg cexOpts.maxPastChapters
            ((cexDeps.computeAllChapters cexOpts.store cexOpts.swipeContext).filter
              (fun ch => ch.endReason.isSome
                && ch.index < (computeOptimalContext cexDeps cexOpts).effectiveCurrentChapter))
      ∧ (computeOptimalContext cexDeps cexOpts).pastChapters.length
          ≤ cexOpts.maxPastChapters
      ∧ (computeOptimalContext cexDeps cexOpts).pastChapters.Pairwise
          (fun a b => a.index < b.index)) :=
  ⟨⟨by decide, by decide, by decide⟩,
    computeOptimalContext_pastChapters_ascending cexDeps cexOpts
      (by decide) (by decide) (by decide)⟩

/-- C2: `findFirstUnextractedMessageId` treats a message as covered only
via snapshots or active events whose swipe id equals the canonical swipe
id computed at that same source message (`CoveredAt`); every message below
the returned id is covered in that per-message sense, and the returned id
itself is uncovered whenever any message is. Events or snapshots on a
non-canonical swipe never contribute coverage, even when other messages of
the same log are canonical on different swipe ids. -/
theorem findFirstUnextracted_per_message_canonical_coverage (store : EventStore)
    (swipeContext : SwipeContext) (totalMessages : Nat) :
    (∀ j, 1 ≤ j →
        j < findFirstUnextractedMessageId store swipeContext totalMessages →
        CoveredAt store swipeContext j)
    ∧ (findFirstUnextractedMessageId store swipeContext totalMessages < totalMessages →
        ¬ CoveredAt store swipeContext
            (findFirstUnextractedMessageId store swipeContext totalMessages))
    ∧ findFirstUnextractedMessageId store swipeContext totalMessages
        ≤ max totalMessages 1 := by
  obtain ⟨h1, h2, _, h4⟩ :=
    scanUncovered_spec (coveredMessageIds store swipeContext) totalMessages 1
  unfold findFirstUnextractedMessageId
  refine ⟨?_, ?_, h4⟩
  · intro j hj1 hj2
    exact (mem_coveredMessageIds_iff store swipeContext j).mp (h1 j hj1 hj2)
  · intro hlt hcov
    exact h2 hlt ((mem_coveredMessageIds_iff store swipeContext _).mpr hcov)

/-- C10: for `totalMessages >= 1` the result of
`findFirstUnextractedMessageId` lies in `[1, totalMessages]` - never 0,
because message 0 is never examined - and a completely empty store yields
1. -/
theorem findFirstUnextracted_lower_bound (store : EventStore)
    (swipeContext : SwipeContext) (totalMessages : Nat) (h : 1 ≤ totalMessages) :
    1 ≤ findFirstUnextractedMessageId store swipeContext totalMessages
    ∧ findFirstUnextractedMessageId store swipeContext totalMessages ≤ totalMessages
    ∧ findFirstUnextractedMessageId { snapshots := [], events := [] } swipeContext
        totalMessages = 1 := by
  obtain ⟨_, _, h3, h4⟩ :=
    scanUncovered_spec (coveredMessageIds store swipeContext) totalMessages 1
  rw [min_eq_right h] at h3
  rw [max_eq_left h] at h4
  unfold findFirstUnextractedMessageId
  refine ⟨h3, h4, ?_⟩
  have hc : coveredMessageIds { snapshots := [], events := [] } swipeContext = [] := rfl
  rw [hc, scanUncovered]
  by_cases h1 : 1 < totalMessages
  · rw [if_pos h1]
    simp
  · rw [if_neg h1]
    omega

theorem findFirstUnextracted_lower_bound_witness :
    (1 : Nat) ≤ 5
    ∧ (1 ≤ findFirstUnextractedMessageId exStore exSwipe 5
      ∧ findFirstUnextractedMessageId exStore exSwipe 5 ≤ 5
      ∧ findFirstUnextractedMessageId { snapshots := [], events := [] } exSwipe 5 = 1) :=
  ⟨by decide, findFirstUnextracted_lower_bound exStore exSwipe 5 (by decide)⟩

lemma catchAsEmpty_isOk (x : Except String String) :
    ∃ s, catchAsEmpty x = Except.ok s := by
  cases x with
  | ok s => exact ⟨s, rfl⟩
  | error e => exact ⟨"", rfl⟩

lemma getStoreAndContext_cases (env : MacroEnv) :
    getStoreAndContext env = none
    ∨ ∃ bf store stContext swipeContext,
        env.bridgeFunctions = some bf
        ∧ bf.getV2EventStore = Except.ok (some store)
        ∧ bf.hasV2InitialSnapshot = Except.ok true
        ∧ env.getContext = Except.ok stContext
        ∧ bf.buildSwipeContext stContext = Except.ok swipeContext
        ∧ getStoreAndContext env = some (store, swipeContext, stContext) := by
  cases hbf : env.bridgeFunctions with
  | none => exact Or.inl (by simp [getStoreAndContext, hbf])
  | some bf =>
    cases hst : bf.getV2EventStore with
    | error e => exact Or.inl (by simp [getStoreAndContext, hbf, hst])
    | ok o =>
      cases o with
      | none => exact Or.inl (by simp [getStoreAndContext, hbf, hst])
      | some store =>
        cases hhas : bf.hasV2InitialSnapshot with
        | error e => exact Or.inl (by simp [getStoreAndContext, hbf, hst, hhas])
        | ok b =>
          cases b with
          | false => exact Or.inl (by simp [getStoreAndContext, hbf, hst, hhas])
          | true =>
            cases hctx : env.getContext with
            | error e => exact Or.inl (by simp [getStoreAndContext, hbf, hst, hhas, hctx])
            | ok stContext =>
              cases hsw : bf.buildSwipeContext stContext with
              | error e =>
                exact Or.inl (by simp [getStoreAndContext, hbf, hst, hhas, hctx, hsw])
              | ok swipeContext =>
                exact Or.inr ⟨bf, store, stContext, swipeContext, rfl, hst, hhas, rfl, hsw,
                  by simp [getStoreAndContext, hbf, hst, hhas, hctx, hsw]⟩

lemma getStoreAndContext_none_of_no_bridge (env : MacroEnv)
    (h : env.bridgeFunctions = none) : getStoreAndContext env = none := by
  simp [getStoreAndContext, h]

lemma getStoreAndContext_none_of_no_store (env : MacroEnv) (bf : MacroBridgeFunctions)
    (hbf : env.bridgeFunctions = some bf) (hst : bf.getV2EventStore = Except.ok none) :
    getStoreAndContext env = none := by
  simp [getStoreAndContext, hbf, hst]

lemma getStoreAndContext_none_of_no_snapshot (env : MacroEnv) (bf : MacroBridgeFunctions)
    (hbf : env.bridgeFunctions = some bf)
    (hhas : bf.hasV2InitialSnapshot = Except.ok false) :
    getStoreAndContext env = none := by
  cases hst : bf.getV2EventStore with
  | error e => simp [getStoreAndContext, hbf, hst]
  | ok o =>
    cases o with
    | none => simp [getStoreAndContext, hbf, hst]
    | some store => simp [getStoreAndContext, hbf, hst, hhas]

lemma btStateHandler_of_none (env : MacroEnv) (h : getStoreAndContext env = none) :
    btStateHandler env = Except.ok "" := by
  unfold btStateHandler
  rw [h]

lemma btNarrativeHandler_of_none (env : MacroEnv) (h : getStoreAndContext env = none) :
    btNarrativeHandler env = Except.ok "" := by
  unfold btNarrativeHandler
  rw [h]

lemma btStateHandler_of_some (env : MacroEnv) (store : EventStore) (sw : SwipeContext)
    (st : STContext) (h : getStoreAndContext env = some (store, sw, st)) :
    btStateHandler env = catchAsEmpty (btStateBody env store sw st env.getV2Settings) := by
  unfold btStateHandler
  rw [h]

lemma btNarrativeHandler_of_some (env : MacroEnv) (store : EventStore) (sw : SwipeContext)
    (st : STContext) (h : getStoreAndContext env = some (store, sw, st)) :
    btNarrativeHandler env
      = catchAsEmpty (btNarrativeBody env store sw st env.getV2Settings) := by
  unfold btNarrativeHandler
  rw [h]

lemma btStateBody_few_messages (env : MacroEnv) (store : EventStore) (sw : SwipeContext)
    (st : STContext) (settings : V2Settings) (h : st.chat.length < 2) :
    btStateBody env store sw st settings = Except.ok "" := by
  have hpm : ((st.chat.length : Int) - 1 - 1) < 0 := by omega
  simp only [btStateBody]
  rw [if_pos hpm]

lemma btNarrativeBody_few_messages (env : MacroEnv) (store : EventStore) (sw : SwipeContext)
    (st : STContext) (settings : V2Settings) (h : st.chat.length < 2) :
    btNarrativeBody env store sw st settings = Except.ok "" := by
  have hpm : ((st.chat.length : Int) - 1 - 1) < 0 := by omega
  simp only [btNarrativeBody]
  rw [if_pos hpm]

lemma btStateBody_proj_error (env : MacroEnv) (store : EventStore) (sw : SwipeContext)
    (st : STContext) (settings : V2Settings) (e : String)
    (he : env.projectStateAtMessage store ((st.chat.length : Int) - 1 - 1).toNat sw
      = Except.error e)
    (h2 : ¬ ((st.chat.length : Int) - 1 - 1) < 0) :
    btStateBody env store sw st settings = Except.error e := by
  simp only [btStateBody]
  rw [if_neg h2, he]

lemma btNarrativeBody_proj_error (env : MacroEnv) (store : EventStore) (sw : SwipeContext)
    (st : STContext) (settings : V2Settings) (e : String)
    (he : env.projectStateAtMessage store ((st.chat.length : Int) - 1 - 1).toNat sw
      = Except.error e)
    (h2 : ¬ ((st.chat.length : Int) - 1 - 1) < 0) :
    btNarrativeBody env store sw st settings = Except.error e := by
  simp only [btNarrativeBody]
  rw [if_neg h2, he]

/-- C9: the macro handlers `btStateHandler` and `btNarrativeHandler` never
propagate an exception - for every state of the bridge functions, store
and swipe context they return an `ok` string - and in every degraded case
(bridge functions unregistered, store `null`, no initial snapshot, fewer
than two chat messages, `projectStateAtMessage` throwing) that string is
empty. -/
theorem macroHandlers_never_throw (env : MacroEnv) :
    (∃ s, btStateHandler env = Except.ok s)
    ∧ (∃ s, btNarrativeHandler env = Except.ok s)
    ∧ (env.bridgeFunctions = none →
        btStateHandler env = Except.ok "" ∧ btNarrativeHandler env = Except.ok "")
    ∧ (∀ bf, env.bridgeFunctions = some bf → bf.getV2EventStore = Except.ok none →
        btStateHandler env = Except.ok "" ∧ btNarrativeHandler env = Except.ok "")
    ∧ (∀ bf, env.bridgeFunctions = some bf →
        bf.hasV2InitialSnapshot = Except.ok false →
        btStateHandler env = Except.ok "" ∧ btNarrativeHandler env = Except.ok "")
    ∧ (∀ stContext, env.getContext = Except.ok stContext → stContext.chat.length < 2 →
        btStateHandler env = Except.ok "" ∧ btNarrativeHandler env = Except.ok "")
    ∧ ((∀ store n sw, ∃ e, env.projectStateAtMessage store n sw = Except.error e) →
        btStateHandler env = Except.ok "" ∧ btNarrativeHandler env = Except.ok "") := by
  refine ⟨?_, ?_, ?_, ?_, ?_, ?_, ?_⟩
  · cases hg : getStoreAndContext env with
    | none => exact ⟨"", btStateHandler_of_none env hg⟩
    | some t =>
      obtain ⟨store, sw, st⟩ := t
      rw [btStateHandler_of_some env store sw st hg]
      exact catchAsEmpty_isOk _
  · cases hg : getStoreAndContext env with
    | none => exact ⟨"", btNarrativeHandler_of_none env hg⟩
    | some t =>
      obtain ⟨store, sw, st⟩ := t
      rw [btNarrativeHandler_of_some env store sw st hg]
      exact catchAsEmpty_isOk _
  · intro h
    have hg := getStoreAndContext_none_of_no_bridge env h
    exact ⟨btStateHandler_of_none env hg, btNarrativeHandler_of_none env hg⟩
  · intro bf hbf hst
    have hg := getStoreAndContext_none_of_no_store env bf hbf hst
    exact ⟨btStateHandler_of_none env hg, btNarrativeHandler_of_none env hg⟩
  · intro bf hbf hhas
    have hg := getStoreAndContext_none_of_no_snapshot env bf hbf hhas
    exact ⟨btStateHandler_of_none env hg, btNarrativeHandler_of_none env hg⟩
  · intro stContext hctx hlen
    rcases getStoreAndContext_cases env with hnone |
      ⟨bf, store, st2, sw, hbf, hst, hhas, hctx2, hsw, hsome⟩
    · exact ⟨btStateHandler_of_none env hnone, btNarrativeHandler_of_none env hnone⟩
    · rw [hctx] at hctx2
      injection hctx2 with hst2
      subst hst2
      constructor
      · rw [btStateHandler_of_some env store sw stContext hsome,
          btStateBody_few_messages env store sw stContext env.getV2Settings hlen]
        rfl
      · rw [btNarrativeHandler_of_some env store sw stContext hsome,
          btNarrativeBody_few_messages env store sw stContext env.getV2Settings hlen]
        rfl
  · intro hproj
    rcases getStoreAndContext_cases env with hnone |
      ⟨bf, store, st2, sw, hbf, hst, hhas, hctx2, hsw, hsome⟩
    · exact ⟨btStateHandler_of_none env hnone, btNarrativeHandler_of_none env hnone⟩
    · by_cases hpm : ((st2.chat.length : Int) - 1 - 1) < 0
      · have hlen : st2.chat.length < 2 := by omega
        constructor
        · rw [btStateHandler_of_some env store sw st2 hsome,
            btStateBody_few_messages env store sw st2 env.getV2Settings hlen]
          rfl
        · rw [btNarrativeHandler_of_some env store sw st2 hsome,
            btNarrativeBody_few_messages env store sw st2 env.getV2Settings hlen]
          rfl
      · obtain ⟨e, he⟩ := hproj store ((st2.chat.length : Int) - 1 - 1).toNat sw
        constructor
        · rw [btStateHandler_of_some env store sw st2 hsome,
            btStateBody_proj_error env store sw st2 env.getV2Settings e he hpm]
          rfl
        · rw [btNarrativeHandler_of_some env store sw st2 hsome,
            btNarrativeBody_proj_error env store sw st2 env.getV2Settings e he hpm]
          rfl

theorem macroHandlers_never_throw_witness :
    exMacroEnv.bridgeFunctions = none
    ∧ btStateHandler exMacroEnv = Except.ok ""
    ∧ btNarrativeHandler exMacroEnv = Except.ok "" :=
  ⟨rfl, (macroHandlers_never_throw exMacroEnv).2.2.1 rfl⟩
